import Mathlib

/-!
Verification of the sftui event pipeline (src/src/main.rs).

The program is a minimal terminal UI: a background poller thread merges
keyboard events and fixed-rate ticks into one mpsc channel, and the main
loop draws a frame, blocks on the channel, and dispatches the received
event ('q' quits, everything else continues).

We embed the program shallowly:
  * the `Event`, `InputEventResult` types and the dispatch logic of
    `handle_input` are translated directly;
  * the effectful collaborators (crossterm, the tui terminal, the mpsc
    channel) are modelled by oracles: each loop iteration is given the
    outcome of its draw and of its receive, and each poller iteration is
    given the outcome of `event::poll` / `event::read`, the liveness of
    the channel, and the clock readings that `Instant` would report;
  * panics (`expect`) in the poller and the `?`-propagation in `main`
    become explicit outcome constructors.
-/

namespace Sftui

/-- Key codes as reported by the terminal backend (crossterm `KeyCode`):
a character key, or one of the named keys.  Only the `Char` constructor is
inspected by the program; the others feed its catch-all arm. -/
inductive KeyCode where
  | Char : Char → KeyCode
  | Enter : KeyCode
  | Esc : KeyCode
  | Tab : KeyCode
  | Backspace : KeyCode
  | Up : KeyCode
  | Down : KeyCode
  | Left : KeyCode
  | Right : KeyCode
  | F : Nat → KeyCode
deriving DecidableEq, Repr

/-- Modifier flags carried by a key event (crossterm `KeyModifiers`). -/
structure KeyModifiers where
  shift : Bool
  control : Bool
  alt : Bool
deriving DecidableEq, Repr

/-- A captured key event (crossterm `KeyEvent`): a key code plus modifier
flags. -/
structure KeyEvent where
  code : KeyCode
  modifiers : KeyModifiers
deriving DecidableEq, Repr

/-- `enum Event<I> { Input(I), Tick }` from main.rs. -/
inductive Event (I : Type) where
  | Input : I → Event I
  | Tick : Event I
deriving DecidableEq, Repr

/-- `enum InputEventResult { Continue, Quit }` from main.rs. -/
inductive InputEventResult where
  | Continue : InputEventResult
  | Quit : InputEventResult
deriving DecidableEq, Repr

/-- `handle_input` from main.rs.  Its argument models the outcome of
`rx.recv()`: a receive error is propagated by `?`, otherwise the event is
dispatched — `Input` with key code `Char('q')` yields `Quit`, any other
key code and `Tick` yield `Continue`. -/
def handle_input (recvResult : Except String (Event KeyEvent)) :
    Except String InputEventResult :=
  match recvResult with
  | .error e => .error e
  | .ok (Event.Input event) =>
    match event.code with
    | KeyCode.Char 'q' => .ok InputEventResult.Quit
    | _ => .ok InputEventResult.Continue
  | .ok Event.Tick => .ok InputEventResult.Continue

/-! ## The render/dispatch loop of `main` -/

/-- Observable actions of the main loop, in the order `main` performs
them: a frame draw (`render_ui`), a blocking receive (inside
`handle_input`), and, on the quit path, `disable_raw_mode` and
`terminal.show_cursor`. -/
inductive LoopAction where
  | draw : LoopAction
  | recv : LoopAction
  | disableRawMode : LoopAction
  | showCursor : LoopAction
deriving DecidableEq, Repr

/-- Oracle for one iteration of the main loop: the outcome of the
`render_ui(&mut terminal)?` call and the outcome of the `rx.recv()` call
inside `handle_input`. -/
structure IterInput where
  drawResult : Except String Unit
  recvResult : Except String (Event KeyEvent)
deriving Repr

/-- How a run of the main loop ends: `quit` (the `break` after a `Quit`
dispatch, after which `main` returns `Ok(())`), `errored` (a `?`
propagated an error out of `main`), or `running` (the supplied oracle
list was exhausted with the loop still in steady state). -/
inductive LoopOutcome where
  | quit : LoopOutcome
  | errored : String → LoopOutcome
  | running : LoopOutcome
deriving DecidableEq, Repr

/-- The `loop { ... }` of `main`, driven by one oracle per iteration plus
the outcomes of the two quit-path calls (`disable_raw_mode()?`,
`terminal.show_cursor()?`).  Returns the trace of observable actions and
the way the loop ended.  Each iteration draws, then receives and
dispatches via `handle_input`; `Quit` runs the shutdown calls and breaks,
`Continue` loops, and any error propagates immediately. -/
def mainLoop (disableResult showResult : Except String Unit) :
    List IterInput → List LoopAction × LoopOutcome
  | [] => ([], LoopOutcome.running)
  | it :: rest =>
    match it.drawResult with
    | .error e => ([LoopAction.draw], LoopOutcome.errored e)
    | .ok _ =>
      match handle_input it.recvResult with
      | .error e => ([LoopAction.draw, LoopAction.recv], LoopOutcome.errored e)
      | .ok InputEventResult.Quit =>
        match disableResult with
        | .error e =>
          ([LoopAction.draw, LoopAction.recv], LoopOutcome.errored e)
        | .ok _ =>
          match showResult with
          | .error e =>
            ([LoopAction.draw, LoopAction.recv, LoopAction.disableRawMode],
              LoopOutcome.errored e)
          | .ok _ =>
            ([LoopAction.draw, LoopAction.recv, LoopAction.disableRawMode,
              LoopAction.showCursor], LoopOutcome.quit)
      | .ok InputEventResult.Continue =>
        (LoopAction.draw :: LoopAction.recv ::
          (mainLoop disableResult showResult rest).1,
          (mainLoop disableResult showResult rest).2)

/-- Terminal session state owned by the loop: raw mode and cursor
visibility.  After `enable_raw_mode` and the first `terminal.draw` the
terminal is in raw mode with the cursor hidden. -/
structure TermState where
  rawMode : Bool
  cursorVisible : Bool
deriving DecidableEq, Repr

/-- Effect of one observable loop action on the terminal state:
`disable_raw_mode` leaves raw mode, `show_cursor` shows the cursor,
drawing and receiving do not change either flag. -/
def applyAction (s : TermState) : LoopAction → TermState
  | LoopAction.disableRawMode => { s with rawMode := false }
  | LoopAction.showCursor => { s with cursorVisible := true }
  | LoopAction.draw => s
  | LoopAction.recv => s

/-- Terminal state after a trace of loop actions. -/
def applyActions (s : TermState) (tr : List LoopAction) : TermState :=
  tr.foldl applyAction s

/-- Process exit status determined by how the loop ended: `main` returns
`Ok(())` after a quit (exit code 0) and returns the propagated error
otherwise (exit code 1, Rust's exit status for `main` returning `Err`).
A still-running loop has not exited. -/
def outcomeExit : LoopOutcome → Option Nat
  | LoopOutcome.quit => some 0
  | LoopOutcome.errored _ => some 1
  | LoopOutcome.running => none

/-- Projection of a trace onto its draw and receive actions. -/
def filterDR (tr : List LoopAction) : List LoopAction :=
  tr.filter (fun a => a = LoopAction.draw || a = LoopAction.recv)

/-- An alternating draw/receive trace: draws and receives strictly
alternate starting with a draw, possibly ending after a draw. -/
def altDR : List LoopAction → Bool
  | [] => true
  | [LoopAction.draw] => true
  | LoopAction.draw :: LoopAction.recv :: rest => altDR rest
  | _ => false

/-! ## The event poller of `start_polling_thread` -/

/-- Terminal events as read from the backend (crossterm `Event`, named
`CEvent` in main.rs): a key event, a resize, or a mouse event.  Only
`Key` is matched by the poller; everything else falls through the
`if let`. -/
inductive CEvent where
  | Key : KeyEvent → CEvent
  | Resize : Nat → Nat → CEvent
  | Mouse : CEvent
deriving DecidableEq, Repr

/-- `tick_rate` from `start_polling_thread`: 200 milliseconds. -/
def tick_rate : Nat := 200

/-- Oracle for one iteration of the poller loop.  `pollResult` is the
outcome of `event::poll(timeout)`; `readResult` the outcome of
`event::read()` (consulted only when the poll reported readiness);
`channelOpen` whether the receiving end of the mpsc channel is still
alive (a send succeeds iff it is); `t1`, `t2` the absolute clock readings
(milliseconds) at the two `last_tick.elapsed()` calls; `t3` the reading
of `Instant::now()` at the tick-clock reset. -/
structure PollerEnv where
  pollResult : Except String Bool
  readResult : Except String CEvent
  channelOpen : Bool
  t1 : Nat
  t2 : Nat
  t3 : Nat
deriving Repr

/-- How a poller iteration ends: either the loop continues with a (possibly
reset) tick clock, or one of the three `expect` calls panicked, killing
the process from the background thread. -/
inductive PollerOutcome where
  | continue : Nat → PollerOutcome
  | panicked : String → PollerOutcome
deriving DecidableEq, Repr

/-- The `timeout` computed at the top of each poller iteration:
`tick_rate.checked_sub(last_tick.elapsed()).unwrap_or(0)`, which truncated
subtraction on `Nat` models exactly. -/
def pollerTimeout (tickRate lastTick t1 : Nat) : Nat :=
  tickRate - (t1 - lastTick)

/-- The key phase of a poller iteration: the body of
`if event::poll(timeout).expect(..) { if let CEvent::Key(key) = event::read().expect(..) { tx.send(..).expect(..) } }`.
Given whether the poll reported readiness, returns the events enqueued by
this phase and, when one of the `expect`s fires, its panic message. -/
def keyPhase (env : PollerEnv) (ready : Bool) :
    List (Event KeyEvent) × Option String :=
  if ready then
    match env.readResult with
    | .error e => ([], some e)
    | .ok (CEvent.Key key) =>
      if env.channelOpen then ([Event.Input key], none)
      else ([], some "Cannot send events")
    | .ok _ => ([], none)
  else ([], none)

/-- The tick phase of a poller iteration:
`if last_tick.elapsed() >= tick_rate { if let Ok(_) = tx.send(Event::Tick) { last_tick = Instant::now(); } }`.
Returns the events enqueued by this phase and the new `last_tick`; the
clock is reset only when the send succeeds (channel open). -/
def tickPhase (tickRate lastTick : Nat) (env : PollerEnv) :
    List (Event KeyEvent) × Nat :=
  if tickRate ≤ env.t2 - lastTick then
    if env.channelOpen then ([Event.Tick], env.t3)
    else ([], lastTick)
  else ([], lastTick)

/-- One iteration of the `loop` inside `start_polling_thread`, given the
tick rate, the current `last_tick` instant, and the oracle for this pass.
Returns the events successfully enqueued on the channel, in order, and
the outcome.  Faithful to main.rs: a poll error panics
(`expect("Polling is broken")`); on readiness the `keyPhase` runs and a
panic there kills the process; otherwise the `tickPhase` runs and the
iteration continues with its new `last_tick`. -/
def pollerIteration (tickRate lastTick : Nat) (env : PollerEnv) :
    List (Event KeyEvent) × PollerOutcome :=
  match env.pollResult with
  | .error e => ([], PollerOutcome.panicked e)
  | .ok ready =>
    match keyPhase env ready with
    | (sent, some e) => (sent, PollerOutcome.panicked e)
    | (sent, none) =>
      (sent ++ (tickPhase tickRate lastTick env).1,
        PollerOutcome.continue (tickPhase tickRate lastTick env).2)

/-- A run of consecutive poller iterations, one oracle per pass,
threading `last_tick` and concatenating the enqueued events; a panic
stops the run (the process dies). -/
def pollerRun (tickRate : Nat) (lastTick : Nat) :
    List PollerEnv → List (Event KeyEvent) × PollerOutcome
  | [] => ([], PollerOutcome.continue lastTick)
  | env :: rest =>
    match pollerIteration tickRate lastTick env with
    | (sent, PollerOutcome.panicked e) => (sent, PollerOutcome.panicked e)
    | (sent, PollerOutcome.continue nt) =>
      (sent ++ (pollerRun tickRate nt rest).1, (pollerRun tickRate nt rest).2)

/-! ## Dispatch claims -/

/-- Claim C1: for every event received from the channel, the dispatch
function returns the `Quit` decision if and only if the event is `Input`
with key code representing the character `q`; every `Input` event with
any other key code, and every `Tick` event, yields the `Continue`
decision. -/
theorem C1_dispatch_quit_iff (ev : Event KeyEvent) :
    (handle_input (Except.ok ev) = Except.ok InputEventResult.Quit ↔
      ∃ k : KeyEvent, ev = Event.Input k ∧ k.code = KeyCode.Char 'q') ∧
    (handle_input (Except.ok ev) = Except.ok InputEventResult.Continue ↔
      ¬ ∃ k : KeyEvent, ev = Event.Input k ∧ k.code = KeyCode.Char 'q') := by
  cases ev with
  | Tick => constructor <;> simp [handle_input]
  | Input k =>
    by_cases hq : k.code = KeyCode.Char 'q' <;>
      constructor <;> simp [handle_input, hq]

/-- Claim C10: the dispatch function examines only the key code of an
`Input` event, never its modifier flags: two `Input` events with the same
key code dispatch identically whatever their modifiers, and in particular
`Char 'q'` yields `Quit` under every modifier combination. -/
theorem C10_modifiers_ignored :
    (∀ (code : KeyCode) (m m' : KeyModifiers),
      handle_input (Except.ok (Event.Input ⟨code, m⟩)) =
        handle_input (Except.ok (Event.Input ⟨code, m'⟩))) ∧
    (∀ m : KeyModifiers,
      handle_input (Except.ok (Event.Input ⟨KeyCode.Char 'q', m⟩)) =
        Except.ok InputEventResult.Quit) := by
  constructor
  · intro code m m'
    by_cases hq : code = KeyCode.Char 'q' <;> simp [handle_input, hq]
  · intro m
    rfl

/-! ## Loop claims -/

/-- Claim C5: in every steady-state iteration of the Loop, regardless of
the kind of event received, exactly one draw occurs before the next
blocking receive: the draw/receive projection of every possible trace of
the loop alternates draw, receive, draw, receive, … starting with a draw. -/
theorem C5_one_draw_per_receive (d s : Except String Unit)
    (its : List IterInput) :
    altDR (filterDR (mainLoop d s its).1) = true := by
  induction its with
  | nil => rfl
  | cons it rest ih =>
    simp only [mainLoop]
    cases hd : it.drawResult with
    | error e => rfl
    | ok u =>
      cases hh : handle_input it.recvResult with
      | error e => rfl
      | ok r =>
        cases r with
        | Quit =>
          cases d with
          | error e => rfl
          | ok u2 =>
            cases s with
            | error e => rfl
            | ok u3 => rfl
        | Continue => simpa [filterDR, altDR] using ih

/-- A steady-state iteration (draw succeeded, dispatch said `Continue`)
contributes a draw and a receive to the trace and the loop recurses. -/
theorem mainLoop_cons_continue (d s : Except String Unit) (it : IterInput)
    (rest : List IterInput)
    (hd : it.drawResult = Except.ok ())
    (hc : handle_input it.recvResult = Except.ok InputEventResult.Continue) :
    mainLoop d s (it :: rest) =
      (LoopAction.draw :: LoopAction.recv :: (mainLoop d s rest).1,
        (mainLoop d s rest).2) := by
  simp only [mainLoop, hd, hc]

/-- A quit iteration (draw succeeded, dispatch said `Quit`, both shutdown
calls succeed) ends the loop with the shutdown actions, ignoring any
remaining input. -/
theorem mainLoop_cons_quit (it : IterInput) (rest : List IterInput)
    (hd : it.drawResult = Except.ok ())
    (hq : handle_input it.recvResult = Except.ok InputEventResult.Quit) :
    mainLoop (Except.ok ()) (Except.ok ()) (it :: rest) =
      ([LoopAction.draw, LoopAction.recv, LoopAction.disableRawMode,
        LoopAction.showCursor], LoopOutcome.quit) := by
  simp only [mainLoop, hd, hq]

/-- A steady-state prefix contributes one draw/receive pair per iteration
and the loop continues on the remaining input. -/
theorem mainLoop_append_steady (d s : Except String Unit)
    (pre rest : List IterInput)
    (hpre : ∀ i ∈ pre, i.drawResult = Except.ok () ∧
      handle_input i.recvResult = Except.ok InputEventResult.Continue) :
    mainLoop d s (pre ++ rest) =
      ((pre.map fun _ => [LoopAction.draw, LoopAction.recv]).flatten ++
        (mainLoop d s rest).1, (mainLoop d s rest).2) := by
  induction pre with
  | nil => simp
  | cons i pre ih =>
    have hi := hpre i (List.mem_cons_self i pre)
    rw [List.cons_append, mainLoop_cons_continue d s i (pre ++ rest) hi.1 hi.2,
      ih (fun j hj => hpre j (List.mem_cons_of_mem i hj))]
    simp

/-- Draws and receives leave the terminal state unchanged, so a
steady-state prefix of the trace does not affect it. -/
theorem applyActions_steady (pre : List IterInput) (s : TermState) :
    applyActions s
      ((pre.map fun _ => [LoopAction.draw, LoopAction.recv]).flatten) = s := by
  induction pre with
  | nil => rfl
  | cons i pre ih => simpa [applyActions, applyAction] using ih

/-- Every action in a steady-state prefix of the trace is a draw or a
receive. -/
theorem mem_steady_trace (pre : List IterInput) (a : LoopAction)
    (ha : a ∈ (pre.map fun _ => [LoopAction.draw, LoopAction.recv]).flatten) :
    a = LoopAction.draw ∨ a = LoopAction.recv := by
  simp only [List.mem_flatten, List.mem_map] at ha
  obtain ⟨l, ⟨i, hi, rfl⟩, hal⟩ := ha
  simpa using hal

/-- `applyActions_steady` restated on the underlying fold, for rewriting
after `List.foldl_append`. -/
theorem foldl_steady (pre : List IterInput) (s : TermState) :
    List.foldl applyAction s
      ((pre.map fun _ => [LoopAction.draw, LoopAction.recv]).flatten) = s :=
  applyActions_steady pre s

/-- Claim C2: once an `Input('q')` event is dispatched (after any
steady-state prefix), the Loop disables raw mode, shows the cursor, and
terminates with no further draws or receives — the trace is closed by the
quit iteration and does not depend on any later input — and the program
returns success (exit code 0). -/
theorem C2_quit_terminal (pre rest : List IterInput) (it : IterInput)
    (key : KeyEvent)
    (hpre : ∀ i ∈ pre, i.drawResult = Except.ok () ∧
      handle_input i.recvResult = Except.ok InputEventResult.Continue)
    (hd : it.drawResult = Except.ok ())
    (hr : it.recvResult = Except.ok (Event.Input key))
    (hq : key.code = KeyCode.Char 'q') :
    mainLoop (Except.ok ()) (Except.ok ()) (pre ++ it :: rest) =
      ((pre.map fun _ => [LoopAction.draw, LoopAction.recv]).flatten ++
        [LoopAction.draw, LoopAction.recv, LoopAction.disableRawMode,
          LoopAction.showCursor], LoopOutcome.quit) ∧
    (applyActions ⟨true, false⟩
      (mainLoop (Except.ok ()) (Except.ok ()) (pre ++ it :: rest)).1).rawMode
      = false ∧
    (applyActions ⟨true, false⟩
      (mainLoop (Except.ok ()) (Except.ok ())
        (pre ++ it :: rest)).1).cursorVisible = true ∧
    outcomeExit (mainLoop (Except.ok ()) (Except.ok ())
      (pre ++ it :: rest)).2 = some 0 := by
  have hquit : handle_input it.recvResult = Except.ok InputEventResult.Quit := by
    simp [handle_input, hr, hq]
  have htr := mainLoop_append_steady (Except.ok ()) (Except.ok ())
    pre (it :: rest) hpre
  rw [mainLoop_cons_quit it rest hd hquit] at htr
  have happ : applyActions ⟨true, false⟩
      ((pre.map fun _ => [LoopAction.draw, LoopAction.recv]).flatten ++
        [LoopAction.draw, LoopAction.recv, LoopAction.disableRawMode,
          LoopAction.showCursor]) = ⟨false, true⟩ := by
    simp only [applyActions]
    rw [List.foldl_append, foldl_steady]
    rfl
  have h1 : (mainLoop (Except.ok ()) (Except.ok ()) (pre ++ it :: rest)).1 =
      (pre.map fun _ => [LoopAction.draw, LoopAction.recv]).flatten ++
        [LoopAction.draw, LoopAction.recv, LoopAction.disableRawMode,
          LoopAction.showCursor] := by rw [htr]
  have h2 : (mainLoop (Except.ok ()) (Except.ok ()) (pre ++ it :: rest)).2 =
      LoopOutcome.quit := by rw [htr]
  refine ⟨htr, ?_, ?_, ?_⟩
  · rw [h1, happ]
  · rw [h1, happ]
  · rw [h2]
    rfl

/-- Claim C8: a draw error or a receive error (after any steady-state
prefix) propagates, aborts the Loop with a non-zero exit status, and on
this path raw mode is never disabled and the cursor is never shown. -/
theorem C8_error_aborts (pre rest : List IterInput) (it : IterInput)
    (msg : String) (d s : Except String Unit)
    (hpre : ∀ i ∈ pre, i.drawResult = Except.ok () ∧
      handle_input i.recvResult = Except.ok InputEventResult.Continue)
    (hbad : it.drawResult = Except.error msg ∨
      (it.drawResult = Except.ok () ∧ it.recvResult = Except.error msg)) :
    (mainLoop d s (pre ++ it :: rest)).2 = LoopOutcome.errored msg ∧
    outcomeExit (mainLoop d s (pre ++ it :: rest)).2 = some 1 ∧
    LoopAction.disableRawMode ∉ (mainLoop d s (pre ++ it :: rest)).1 ∧
    LoopAction.showCursor ∉ (mainLoop d s (pre ++ it :: rest)).1 ∧
    applyActions ⟨true, false⟩ (mainLoop d s (pre ++ it :: rest)).1 =
      ⟨true, false⟩ := by
  have htr := mainLoop_append_steady d s pre (it :: rest) hpre
  have hit : mainLoop d s (it :: rest) = ([LoopAction.draw],
        LoopOutcome.errored msg) ∨
      mainLoop d s (it :: rest) = ([LoopAction.draw, LoopAction.recv],
        LoopOutcome.errored msg) := by
    rcases hbad with hde | ⟨hdo, hre⟩
    · exact Or.inl (by simp only [mainLoop, hde])
    · refine Or.inr ?_
      have : handle_input it.recvResult = Except.error msg := by
        simp [handle_input, hre]
      simp only [mainLoop, hdo, this]
  have htail : (mainLoop d s (it :: rest)).1 = [LoopAction.draw] ∨
      (mainLoop d s (it :: rest)).1 = [LoopAction.draw, LoopAction.recv] := by
    rcases hit with hit | hit <;> rw [hit]
    · exact Or.inl rfl
    · exact Or.inr rfl
  have hout : (mainLoop d s (it :: rest)).2 = LoopOutcome.errored msg := by
    rcases hit with hit | hit <;> rw [hit]
  have h1 : (mainLoop d s (pre ++ it :: rest)).1 =
      (pre.map fun _ => [LoopAction.draw, LoopAction.recv]).flatten ++
        (mainLoop d s (it :: rest)).1 := by rw [htr]
  have h2 : (mainLoop d s (pre ++ it :: rest)).2 =
      (mainLoop d s (it :: rest)).2 := by rw [htr]
  refine ⟨by rw [h2, hout], by rw [h2, hout]; rfl, ?_, ?_, ?_⟩
  · intro hmem
    rw [h1] at hmem
    rcases List.mem_append.mp hmem with hmem | hmem
    · rcases mem_steady_trace pre _ hmem with h | h <;> cases h
    · rcases htail with ht | ht <;> rw [ht] at hmem <;> simp at hmem
  · intro hmem
    rw [h1] at hmem
    rcases List.mem_append.mp hmem with hmem | hmem
    · rcases mem_steady_trace pre _ hmem with h | h <;> cases h
    · rcases htail with ht | ht <;> rw [ht] at hmem <;> simp at hmem
  · rw [h1]
    rcases htail with ht | ht <;> rw [ht] <;>
      simp only [applyActions] <;> rw [List.foldl_append, foldl_steady] <;> rfl

/-! ## Poller claims -/

/-- The key phase enqueues either nothing or a single `Input` event —
never a `Tick`. -/
theorem keyPhase_shape (env : PollerEnv) (ready : Bool) :
    (keyPhase env ready).1 = [] ∨
      ∃ k : KeyEvent, (keyPhase env ready).1 = [Event.Input k] := by
  cases ready with
  | false => exact Or.inl rfl
  | true =>
    cases hr : env.readResult with
    | error e => exact Or.inl (by simp [keyPhase, hr])
    | ok cev =>
      cases cev with
      | Key k =>
        cases hc : env.channelOpen
        · exact Or.inl (by simp [keyPhase, hr, hc])
        · exact Or.inr ⟨k, by simp [keyPhase, hr, hc]⟩
      | Resize w h => exact Or.inl (by simp [keyPhase, hr])
      | Mouse => exact Or.inl (by simp [keyPhase, hr])

/-- A surviving key phase makes the iteration the key-phase events
followed by the tick-phase events, continuing with the tick-phase clock. -/
theorem pollerIteration_ok (tickRate lastTick : Nat) (env : PollerEnv)
    (ready : Bool)
    (hpoll : env.pollResult = Except.ok ready)
    (hkey : (keyPhase env ready).2 = none) :
    pollerIteration tickRate lastTick env =
      ((keyPhase env ready).1 ++ (tickPhase tickRate lastTick env).1,
        PollerOutcome.continue (tickPhase tickRate lastTick env).2) := by
  rcases hk : keyPhase env ready with ⟨sent, opt⟩
  have hopt : opt = none := by rw [hk] at hkey; exact hkey
  subst hopt
  simp only [pollerIteration, hpoll, hk]

/-- Claim C3: in every poller iteration that survives the key phase with
the consumer still attached, the tick check runs after the wait: when at
least `tick_rate` has elapsed since the last tick, exactly one `Tick` is
emitted and the tick clock is reset to the current instant; otherwise no
`Tick` is emitted and the clock is unchanged; in all cases at most one
`Tick` is emitted per iteration, no matter how many intervals were
missed. -/
theorem C3_tick_emission (tickRate lastTick : Nat) (env : PollerEnv)
    (ready : Bool)
    (hopen : env.channelOpen = true)
    (hpoll : env.pollResult = Except.ok ready)
    (hkey : (keyPhase env ready).2 = none) :
    ((pollerIteration tickRate lastTick env).1.count Event.Tick =
      if tickRate ≤ env.t2 - lastTick then 1 else 0) ∧
    ((pollerIteration tickRate lastTick env).2 = PollerOutcome.continue
      (if tickRate ≤ env.t2 - lastTick then env.t3 else lastTick)) ∧
    (pollerIteration tickRate lastTick env).1.count Event.Tick ≤ 1 := by
  rw [pollerIteration_ok tickRate lastTick env ready hpoll hkey]
  have hks : ((keyPhase env ready).1.count (Event.Tick : Event KeyEvent))
      = 0 := by
    rcases keyPhase_shape env ready with h | ⟨k, h⟩ <;> rw [h] <;> simp
  by_cases hc : tickRate ≤ env.t2 - lastTick <;>
    simp [tickPhase, hopen, hc, List.count_append, hks]

/-- Claim C4: in every poller iteration in which a key event arrives
within the timeout (and the consumer is attached), the `Input(key)` is
enqueued before the tick check of the same pass — it is the head of the
iteration's emissions, with any `Tick` strictly after it — and emitting
it does not reset the tick clock: the resulting clock is exactly what the
tick phase alone dictates, in particular unchanged when less than
`tick_rate` has elapsed. -/
theorem C4_input_before_tick (tickRate lastTick : Nat) (env : PollerEnv)
    (key : KeyEvent)
    (hpoll : env.pollResult = Except.ok true)
    (hread : env.readResult = Except.ok (CEvent.Key key))
    (hopen : env.channelOpen = true) :
    ((pollerIteration tickRate lastTick env).1 =
      Event.Input key :: (tickPhase tickRate lastTick env).1) ∧
    ((pollerIteration tickRate lastTick env).2 =
      PollerOutcome.continue (tickPhase tickRate lastTick env).2) ∧
    (¬ tickRate ≤ env.t2 - lastTick →
      (pollerIteration tickRate lastTick env).2 =
        PollerOutcome.continue lastTick) := by
  have hk : keyPhase env true = ([Event.Input key], none) := by
    simp [keyPhase, hread, hopen]
  have hiter := pollerIteration_ok tickRate lastTick env true hpoll
    (by rw [hk])
  rw [hk] at hiter
  rw [hiter]
  refine ⟨by simp, rfl, ?_⟩
  intro hc
  simp [tickPhase, hc]

/-- Claim C6: each of the three fatal poller errors — a poll failure, a
read failure once ready, and a failed send of an `Input` event — makes
the corresponding `expect` panic, killing the process from the background
thread with nothing enqueued; a panicked iteration ends the run no matter
what would have followed (no recovery or retry). -/
theorem C6_fatal_errors (tickRate lastTick : Nat) (env : PollerEnv) :
    (∀ msg, env.pollResult = Except.error msg →
      pollerIteration tickRate lastTick env =
        ([], PollerOutcome.panicked msg)) ∧
    (∀ msg, env.pollResult = Except.ok true →
      env.readResult = Except.error msg →
      pollerIteration tickRate lastTick env =
        ([], PollerOutcome.panicked msg)) ∧
    (∀ key : KeyEvent, env.pollResult = Except.ok true →
      env.readResult = Except.ok (CEvent.Key key) →
      env.channelOpen = false →
      pollerIteration tickRate lastTick env =
        ([], PollerOutcome.panicked "Cannot send events")) ∧
    (∀ msg (rest : List PollerEnv),
      pollerIteration tickRate lastTick env =
        ([], PollerOutcome.panicked msg) →
      pollerRun tickRate lastTick (env :: rest) =
        ([], PollerOutcome.panicked msg)) := by
  refine ⟨?_, ?_, ?_, ?_⟩
  · intro msg hp
    simp only [pollerIteration, hp]
  · intro msg hp hr
    have hk : keyPhase env true = ([], some msg) := by
      simp [keyPhase, hr]
    simp only [pollerIteration, hp, hk]
  · intro key hp hr hc
    have hk : keyPhase env true = ([], some "Cannot send events") := by
      simp [keyPhase, hr, hc]
    simp only [pollerIteration, hp, hk]
  · intro msg rest hiter
    simp only [pollerRun, hiter]

/-- Claim C7: when the consumer has dropped the receiving end of the
channel, a failed `Tick` send is swallowed: a poller in this situation
never panics, enqueues nothing, never resets its tick clock, and keeps
looping, discarding every subsequent tick-send the same way. -/
theorem C7_tick_send_swallowed (tickRate lastTick : Nat)
    (envs : List PollerEnv)
    (h : ∀ e ∈ envs, e.channelOpen = false ∧
      e.pollResult = Except.ok false) :
    pollerRun tickRate lastTick envs =
      ([], PollerOutcome.continue lastTick) := by
  induction envs with
  | nil => rfl
  | cons env rest ih =>
    have he := h env (List.mem_cons_self env rest)
    have hiter := pollerIteration_ok tickRate lastTick env false he.2 rfl
    have htick : tickPhase tickRate lastTick env = ([], lastTick) := by
      simp [tickPhase, he.1]
    rw [htick] at hiter
    simp only [pollerRun, hiter]
    simp [keyPhase, ih (fun e he => h e (List.mem_cons_of_mem env he))]

/-- Claim C9: a terminal event that is not a key event (a resize or a
mouse event) is silently discarded: the poller emits nothing for it, and
the iteration behaves exactly as the tick phase alone — in particular no
`Input` is enqueued and the tick clock is driven only by the tick check. -/
theorem C9_non_key_discarded (tickRate lastTick : Nat) (env : PollerEnv)
    (cev : CEvent)
    (hpoll : env.pollResult = Except.ok true)
    (hread : env.readResult = Except.ok cev)
    (hnotkey : ∀ k : KeyEvent, cev ≠ CEvent.Key k) :
    pollerIteration tickRate lastTick env =
      ((tickPhase tickRate lastTick env).1,
        PollerOutcome.continue (tickPhase tickRate lastTick env).2) ∧
    (∀ k : KeyEvent,
      Event.Input k ∉ (pollerIteration tickRate lastTick env).1) := by
  have hk : keyPhase env true = ([], none) := by
    cases cev with
    | Key k => exact absurd rfl (hnotkey k)
    | Resize w h => simp [keyPhase, hread]
    | Mouse => simp [keyPhase, hread]
  have hiter := pollerIteration_ok tickRate lastTick env true hpoll
    (by rw [hk])
  rw [hk] at hiter
  simp only [List.nil_append] at hiter
  refine ⟨hiter, ?_⟩
  intro k hmem
  rw [hiter] at hmem
  simp only at hmem
  by_cases hc : tickRate ≤ env.t2 - lastTick <;>
    by_cases ho : env.channelOpen = true <;>
      simp [tickPhase, hc, ho] at hmem

/-! ## Concrete witnesses -/

/-- Witness for `C2_quit_terminal`: a tick iteration, then `Input('q')`
with all modifiers off, then a pending tick iteration that is never
consumed; the loop quits with the shutdown actions and exit code 0. -/
theorem C2_quit_terminal_witness :
    mainLoop (Except.ok ()) (Except.ok ())
        [⟨Except.ok (), Except.ok Event.Tick⟩,
          ⟨Except.ok (), Except.ok (Event.Input
            ⟨KeyCode.Char 'q', ⟨false, false, false⟩⟩)⟩,
          ⟨Except.ok (), Except.ok Event.Tick⟩] =
      ([LoopAction.draw, LoopAction.recv, LoopAction.draw, LoopAction.recv,
        LoopAction.disableRawMode, LoopAction.showCursor],
        LoopOutcome.quit) ∧
    outcomeExit (mainLoop (Except.ok ()) (Except.ok ())
        [⟨Except.ok (), Except.ok Event.Tick⟩,
          ⟨Except.ok (), Except.ok (Event.Input
            ⟨KeyCode.Char 'q', ⟨false, false, false⟩⟩)⟩,
          ⟨Except.ok (), Except.ok Event.Tick⟩]).2 = some 0 := by
  have h := C2_quit_terminal
    [⟨Except.ok (), Except.ok Event.Tick⟩]
    [⟨Except.ok (), Except.ok Event.Tick⟩]
    ⟨Except.ok (), Except.ok (Event.Input
      ⟨KeyCode.Char 'q', ⟨false, false, false⟩⟩)⟩
    ⟨KeyCode.Char 'q', ⟨false, false, false⟩⟩
    (by
      intro i hi
      rw [List.mem_singleton] at hi
      subst hi
      exact ⟨rfl, rfl⟩)
    rfl rfl rfl
  exact ⟨h.1.trans rfl, h.2.2.2⟩

/-- Witness for `C8_error_aborts`: a tick iteration and then a failing
draw; the loop aborts with the error, exit code 1, raw mode still on and
cursor still hidden. -/
theorem C8_error_aborts_witness :
    (mainLoop (Except.ok ()) (Except.ok ())
        [⟨Except.ok (), Except.ok Event.Tick⟩,
          ⟨Except.error "draw failed", Except.ok Event.Tick⟩]).2 =
      LoopOutcome.errored "draw failed" ∧
    outcomeExit (mainLoop (Except.ok ()) (Except.ok ())
        [⟨Except.ok (), Except.ok Event.Tick⟩,
          ⟨Except.error "draw failed", Except.ok Event.Tick⟩]).2 = some 1 ∧
    applyActions ⟨true, false⟩ (mainLoop (Except.ok ()) (Except.ok ())
        [⟨Except.ok (), Except.ok Event.Tick⟩,
          ⟨Except.error "draw failed", Except.ok Event.Tick⟩]).1 =
      ⟨true, false⟩ := by
  have h := C8_error_aborts
    [⟨Except.ok (), Except.ok Event.Tick⟩] []
    ⟨Except.error "draw failed", Except.ok Event.Tick⟩
    "draw failed" (Except.ok ()) (Except.ok ())
    (by
      intro i hi
      rw [List.mem_singleton] at hi
      subst hi
      exact ⟨rfl, rfl⟩)
    (Or.inl rfl)
  exact ⟨h.1, h.2.1, h.2.2.2.2⟩

/-- Witness for `C3_tick_emission`: an iteration with no key activity,
the consumer attached, and 250 ms elapsed against a 200 ms tick rate:
exactly one `Tick` is emitted and the clock is reset to the current
instant. -/
theorem C3_tick_emission_witness :
    (pollerIteration 200 0 ⟨Except.ok false, Except.ok CEvent.Mouse,
        true, 50, 250, 260⟩).1.count Event.Tick = 1 ∧
    (pollerIteration 200 0 ⟨Except.ok false, Except.ok CEvent.Mouse,
        true, 50, 250, 260⟩).2 = PollerOutcome.continue 260 := by
  have h := C3_tick_emission 200 0
    ⟨Except.ok false, Except.ok CEvent.Mouse, true, 50, 250, 260⟩ false
    rfl rfl rfl
  exact ⟨h.1.trans rfl, h.2.1.trans rfl⟩

/-- Witness for `C4_input_before_tick`: a key `'x'` arrives 100 ms into a
200 ms interval; only the `Input` is emitted and the tick clock is left
untouched. -/
theorem C4_input_before_tick_witness :
    (pollerIteration 200 0 ⟨Except.ok true,
        Except.ok (CEvent.Key ⟨KeyCode.Char 'x', ⟨false, false, false⟩⟩),
        true, 100, 100, 100⟩).1 =
      [Event.Input ⟨KeyCode.Char 'x', ⟨false, false, false⟩⟩] ∧
    (pollerIteration 200 0 ⟨Except.ok true,
        Except.ok (CEvent.Key ⟨KeyCode.Char 'x', ⟨false, false, false⟩⟩),
        true, 100, 100, 100⟩).2 = PollerOutcome.continue 0 := by
  have h := C4_input_before_tick 200 0
    ⟨Except.ok true,
      Except.ok (CEvent.Key ⟨KeyCode.Char 'x', ⟨false, false, false⟩⟩),
      true, 100, 100, 100⟩
    ⟨KeyCode.Char 'x', ⟨false, false, false⟩⟩ rfl rfl rfl
  exact ⟨h.1.trans rfl, h.2.2 (by decide)⟩

/-- Witness for `C6_fatal_errors`: each of the three fatal cases at a
concrete environment, plus the run stopping at the panicked iteration. -/
theorem C6_fatal_errors_witness :
    pollerIteration 200 0 ⟨Except.error "Polling is broken",
        Except.ok CEvent.Mouse, true, 0, 0, 0⟩ =
      ([], PollerOutcome.panicked "Polling is broken") ∧
    pollerIteration 200 0 ⟨Except.ok true,
        Except.error "Cannot read events", true, 0, 0, 0⟩ =
      ([], PollerOutcome.panicked "Cannot read events") ∧
    pollerIteration 200 0 ⟨Except.ok true,
        Except.ok (CEvent.Key ⟨KeyCode.Char 'x', ⟨false, false, false⟩⟩),
        false, 0, 0, 0⟩ =
      ([], PollerOutcome.panicked "Cannot send events") ∧
    pollerRun 200 0 [⟨Except.error "Polling is broken",
        Except.ok CEvent.Mouse, true, 0, 0, 0⟩] =
      ([], PollerOutcome.panicked "Polling is broken") := by
  refine ⟨(C6_fatal_errors 200 0 _).1 "Polling is broken" rfl,
    (C6_fatal_errors 200 0 _).2.1 "Cannot read events" rfl rfl,
    (C6_fatal_errors 200 0 _).2.2.1
      ⟨KeyCode.Char 'x', ⟨false, false, false⟩⟩ rfl rfl rfl,
    (C6_fatal_errors 200 0 _).2.2.2 "Polling is broken" []
      ((C6_fatal_errors 200 0 _).1 "Polling is broken" rfl)⟩

/-- Witness for `C7_tick_send_swallowed`: three consecutive passes with
the consumer gone and the tick long overdue (1000 ms elapsed against
200 ms): every tick-send is silently discarded, nothing is emitted, the
poller never panics and never resets its clock. -/
theorem C7_tick_send_swallowed_witness :
    pollerRun 200 0
      [⟨Except.ok false, Except.ok CEvent.Mouse, false, 1000, 1000, 1000⟩,
        ⟨Except.ok false, Except.ok CEvent.Mouse, false, 1000, 1000, 1000⟩,
        ⟨Except.ok false, Except.ok CEvent.Mouse, false, 1000, 1000, 1000⟩] =
      ([], PollerOutcome.continue 0) := by
  refine C7_tick_send_swallowed 200 0 _ ?_
  intro x hx
  fin_cases hx <;> exact ⟨rfl, rfl⟩

/-- Witness for `C9_non_key_discarded`: a resize event read 250 ms into a
200 ms interval; the resize is discarded and the iteration emits only the
due `Tick`. -/
theorem C9_non_key_discarded_witness :
    pollerIteration 200 0 ⟨Except.ok true, Except.ok (CEvent.Resize 80 24),
        true, 50, 250, 260⟩ =
      ([Event.Tick], PollerOutcome.continue 260) := by
  have h := C9_non_key_discarded 200 0
    ⟨Except.ok true, Except.ok (CEvent.Resize 80 24), true, 50, 250, 260⟩
    (CEvent.Resize 80 24) rfl rfl
    (by intro k hk; exact CEvent.noConfusion hk)
  exact h.1.trans rfl

end Sftui
